import Mathlib

/-!
Shallow embedding of src/server.js (fpl-compare): an Express proxy over the
FPL API with two 60-second in-memory caches, a player projector (mapPlayer),
and a team-fixtures pipeline (filter, stable sort by gameweek, take 5, map
to views).  JavaScript Array.prototype.sort is stable per the ECMAScript
specification, so it is embedded as insertion sort with the comparator's
induced order.  Times are naturals; the JS check `now - ts < ttl` agrees
with truncated subtraction whenever `now >= ts`, and both sides accept when
`now < ts` (negative difference resp. zero), so the predicates coincide.
-/

namespace FplCompare

/-- A team record from the bootstrap dataset (the fields server.js reads). -/
structure Team where
  id : Int
  name : String
  strength_attack_home : Int
  strength_attack_away : Int
  strength_defence_home : Int
  strength_defence_away : Int
  deriving DecidableEq

/-- A position-type record (element_types entry); the fields server.js reads. -/
structure ElementType where
  id : Int
  singular_name_short : String
  deriving DecidableEq

/-- The per-player statistic fields that mapPlayer copies verbatim into the
nested stats object.  Numeric upstream fields are Int, string-valued upstream
fields are String; the copy is field-for-field from the source. -/
structure PlayerStats where
  now_cost : Int
  total_points : Int
  minutes : Int
  goals_scored : Int
  assists : Int
  clean_sheets : Int
  goals_conceded : Int
  own_goals : Int
  penalties_saved : Int
  penalties_missed : Int
  yellow_cards : Int
  red_cards : Int
  saves : Int
  bonus : Int
  bps : Int
  influence : String
  creativity : String
  threat : String
  ict_index : String
  form : String
  points_per_game : String
  selected_by_percent : String
  ep_next : String
  ep_this : String
  expected_goals : String
  expected_assists : String
  expected_goal_involvements : String
  expected_goals_conceded : String
  deriving DecidableEq

/-- A raw upstream player element, with the owning team id (team) and
position-type id (element_type) plus the statistic fields. -/
structure RawPlayer where
  id : Int
  web_name : String
  first_name : String
  second_name : String
  team : Int
  element_type : Int
  stats : PlayerStats
  deriving DecidableEq

/-- The projected player shape returned by mapPlayer. -/
structure PlayerView where
  id : Int
  web_name : String
  first_name : String
  second_name : String
  team_id : Int
  team : String
  position : String
  stats : PlayerStats
  deriving DecidableEq

/-- A raw upstream fixture (the fields server.js reads).  event is the
optional gameweek; none embeds the JS null/undefined of an unscheduled
fixture. -/
structure Fixture where
  event : Option Nat
  team_h : Int
  team_a : Int
  team_h_difficulty : Int
  team_a_difficulty : Int
  kickoff_time : String
  deriving DecidableEq

/-- The bootstrap-static payload; each collection is optional because the
handlers guard every read with `|| []`. -/
structure Bootstrap where
  elements : Option (List RawPlayer)
  teams : Option (List Team)
  element_types : Option (List ElementType)
  deriving DecidableEq

/-- One cache slot: the module-level `cachedX` variable (none embeds JS null)
together with its `xTimestamp`. -/
structure CacheState (α : Type) where
  cached : Option α
  timestamp : Nat
  deriving DecidableEq

/-- The refresh arm shared by getBootstrapStatic and getFixtures: the fetch
either fails (the thrown error propagates and no cache variable is written)
or succeeds (payload and timestamp are stored).  The Bool records that an
upstream fetch was issued. -/
def refreshStep {α : Type} (st : CacheState α) (now : Nat)
    (fetchResult : Except String α) :
    Except String α × CacheState α × Bool :=
  match fetchResult with
  | Except.error e => (Except.error e, st, true)
  | Except.ok data => (Except.ok data, { cached := some data, timestamp := now }, true)

/-- The read-through cache of server.js: `if (cachedX && now - ts < TTL)
return cachedX;` then fetch.  The fetch outcome is passed in as data; the
Bool in the result is true exactly when the fetch was issued. -/
def getOrRefresh {α : Type} (st : CacheState α) (now ttl : Nat)
    (fetchResult : Except String α) :
    Except String α × CacheState α × Bool :=
  match st.cached with
  | some payload =>
      if now - st.timestamp < ttl then (Except.ok payload, st, false)
      else refreshStep st now fetchResult
  | none => refreshStep st now fetchResult

/-- BOOTSTRAP_CACHE_MS = 60 * 1000. -/
def BOOTSTRAP_CACHE_MS : Nat := 60 * 1000

/-- FIXTURES_CACHE_MS = 60 * 1000. -/
def FIXTURES_CACHE_MS : Nat := 60 * 1000

/-- getBootstrapStatic: the bootstrap cache instantiation. -/
def getBootstrapStatic (st : CacheState Bootstrap) (now : Nat)
    (fetchResult : Except String Bootstrap) :
    Except String Bootstrap × CacheState Bootstrap × Bool :=
  getOrRefresh st now BOOTSTRAP_CACHE_MS fetchResult

/-- getFixtures: the fixtures cache instantiation. -/
def getFixtures (st : CacheState (List Fixture)) (now : Nat)
    (fetchResult : Except String (List Fixture)) :
    Except String (List Fixture) × CacheState (List Fixture) × Bool :=
  getOrRefresh st now FIXTURES_CACHE_MS fetchResult

/-- mapPlayer from server.js: linear lookups of team and position type, with
the "Unknown" / "UNK" sentinels, and a verbatim copy of the stats fields. -/
def mapPlayer (rawPlayer : RawPlayer) (teams : List Team)
    (elementsTypes : List ElementType) : PlayerView :=
  let team := teams.find? (fun t => t.id == rawPlayer.team)
  let etype := elementsTypes.find? (fun et => et.id == rawPlayer.element_type)
  { id := rawPlayer.id
    web_name := rawPlayer.web_name
    first_name := rawPlayer.first_name
    second_name := rawPlayer.second_name
    team_id := rawPlayer.team
    team := match team with
      | some t => t.name
      | none => "Unknown"
    position := match etype with
      | some t => t.singular_name_short
      | none => "UNK"
    stats := rawPlayer.stats }

/-- The value of a JS Number(string) parse: none embeds NaN, some v a finite
integer value (the ids the server compares are integers). -/
def jsFalsyNum : Option Int → Bool
  | none => true
  | some v => v == 0

/-- JS strict equality of a possibly-NaN parsed number against a record id:
NaN compares unequal to everything. -/
def jsNumEq : Option Int → Int → Bool
  | none, _ => false
  | some v, w => v == w

/-- The sort key of the comparator `(a.event || 999) - (b.event || 999)`:
JS `||` replaces the falsy values null/undefined and 0 by 999. -/
def jsEventOr999 (f : Fixture) : Nat :=
  match f.event with
  | none => 999
  | some e => if e = 0 then 999 else e

/-- Stable ascending sort by a natural-number key, the meaning of a stable
JS Array.prototype.sort under the comparator `key a - key b`. -/
def sortByKey {α : Type} (key : α → Nat) (l : List α) : List α :=
  List.insertionSort (fun a b => key a ≤ key b) l

/-- The filter predicate `f.team_h === teamId || f.team_a === teamId`. -/
def participates (teamId : Int) (f : Fixture) : Bool :=
  f.team_h == teamId || f.team_a == teamId

/-- The selection pipeline of the team-fixtures handler: filter to the
team's fixtures, sort by `event || 999`, take the next 5. -/
def selectTeamFixtures (fixtures : List Fixture) (teamId : Int) : List Fixture :=
  (sortByKey jsEventOr999 (fixtures.filter (participates teamId))).take 5

/-- Lookup in the Map built by `teams.forEach(t => teamMap.set(t.id, t))`:
a later binding for the same id overwrites an earlier one, so get returns
the last matching team. -/
def teamMapGet (teams : List Team) (tid : Int) : Option Team :=
  teams.foldl (fun acc t => if t.id == tid then some t else acc) none

/-- One entry of the team-fixtures response. -/
structure FixtureView where
  gw : Option Nat
  is_home : Bool
  opponent_team_id : Int
  opponent_name : String
  difficulty : Int
  opponent_def_strength : Option Int
  opponent_att_strength : Option Int
  kickoff_time : String
  deriving DecidableEq

/-- The per-fixture map step of the team-fixtures handler. -/
def buildFixtureView (teamId : Int) (teams : List Team) (f : Fixture) :
    FixtureView :=
  let isHome := f.team_h == teamId
  let opponentId := if isHome then f.team_a else f.team_h
  let opponentTeam := teamMapGet teams opponentId
  { gw := f.event
    is_home := isHome
    opponent_team_id := opponentId
    opponent_name := match opponentTeam with
      | some t => t.name
      | none => "Unknown"
    difficulty := if isHome then f.team_h_difficulty else f.team_a_difficulty
    opponent_def_strength := match opponentTeam with
      | some t => some (if isHome then t.strength_defence_away
                        else t.strength_defence_home)
      | none => none
    opponent_att_strength := match opponentTeam with
      | some t => some (if isHome then t.strength_attack_away
                        else t.strength_attack_home)
      | none => none
    kickoff_time := f.kickoff_time }

/-- The reduced team record returned by GET /api/players. -/
structure SimpleTeam where
  id : Int
  name : String
  deriving DecidableEq

/-- Response body of GET /api/players. -/
inductive PlayersBody where
  | err (error : String)
  | payload (players : List PlayerView) (teams : List SimpleTeam)
  deriving DecidableEq

/-- GET /api/players: refresh-or-serve the dataset, project every player,
reduce teams to id/name pairs; a failed fetch becomes a 500.  The result
carries the HTTP status and body, the cache state after the call, and
whether an upstream fetch was issued. -/
def handlePlayers (now : Nat) (bootSt : CacheState Bootstrap)
    (bootFetch : Except String Bootstrap) :
    (Nat × PlayersBody) × CacheState Bootstrap × Bool :=
  let r := getBootstrapStatic bootSt now bootFetch
  match r.1 with
  | Except.error _ => ((500, PlayersBody.err "Failed to fetch FPL data"), r.2.1, r.2.2)
  | Except.ok data =>
      let teams := data.teams.getD []
      let elementTypes := data.element_types.getD []
      let players := (data.elements.getD []).map (fun p => mapPlayer p teams elementTypes)
      let simpleTeams := teams.map (fun t => ({ id := t.id, name := t.name } : SimpleTeam))
      ((200, PlayersBody.payload players simpleTeams), r.2.1, r.2.2)

/-- Response body of GET /api/player/:id. -/
inductive PlayerBody where
  | err (error : String)
  | payload (player : PlayerView)
  deriving DecidableEq

/-- GET /api/player/:id: parse the id (none embeds NaN), find the raw player
by strict equality, 404 when absent, otherwise project it. -/
def handlePlayer (idParam : Option Int) (now : Nat) (bootSt : CacheState Bootstrap)
    (bootFetch : Except String Bootstrap) :
    (Nat × PlayerBody) × CacheState Bootstrap × Bool :=
  let r := getBootstrapStatic bootSt now bootFetch
  match r.1 with
  | Except.error _ => ((500, PlayerBody.err "Failed to fetch player"), r.2.1, r.2.2)
  | Except.ok data =>
      let teams := data.teams.getD []
      let elementTypes := data.element_types.getD []
      match (data.elements.getD []).find? (fun p => jsNumEq idParam p.id) with
      | none => ((404, PlayerBody.err "Player not found"), r.2.1, r.2.2)
      | some playerRaw =>
          ((200, PlayerBody.payload (mapPlayer playerRaw teams elementTypes)), r.2.1, r.2.2)

/-- Response body of GET /api/team-fixtures/:teamId. -/
inductive TFBody where
  | err (error : String)
  | payload (team_id : Int) (team_name : String) (fixtures : List FixtureView)
  deriving DecidableEq

/-- GET /api/team-fixtures/:teamId.  `if (!teamId)` rejects exactly the JS
falsy parses (NaN and 0) with a 400 before any fetch.  Otherwise both caches
are consulted via Promise.all: both fetch steps run and their cache updates
persist even if one of them fails, in which case the handler answers 500.
The final Nat counts the upstream fetches issued. -/
def handleTeamFixtures (teamIdParam : Option Int) (now : Nat)
    (bootSt : CacheState Bootstrap) (fixSt : CacheState (List Fixture))
    (bootFetch : Except String Bootstrap) (fixFetch : Except String (List Fixture)) :
    (Nat × TFBody) × CacheState Bootstrap × CacheState (List Fixture) × Nat :=
  if jsFalsyNum teamIdParam then
    ((400, TFBody.err "Invalid team id"), bootSt, fixSt, 0)
  else
    let teamId := teamIdParam.getD 0
    let bootRes := getBootstrapStatic bootSt now bootFetch
    let fixRes := getFixtures fixSt now fixFetch
    let fetches := (if bootRes.2.2 then 1 else 0) + (if fixRes.2.2 then 1 else 0)
    match bootRes.1, fixRes.1 with
    | Except.ok bootstrap, Except.ok fixtures =>
        let teams := bootstrap.teams.getD []
        match teams.find? (fun t => t.id == teamId) with
        | none => ((404, TFBody.err "Team not found"), bootRes.2.1, fixRes.2.1, fetches)
        | some team =>
            let teamFixtures := (selectTeamFixtures fixtures teamId).map
              (buildFixtureView teamId teams)
            ((200, TFBody.payload teamId team.name teamFixtures),
              bootRes.2.1, fixRes.2.1, fetches)
    | _, _ => ((500, TFBody.err "Failed to fetch team fixtures"),
        bootRes.2.1, fixRes.2.1, fetches)

/-- The sort key the specification describes: an unset gameweek sorts as the
sentinel 999, an assigned gameweek sorts as itself. -/
def specGwKey (f : Fixture) : Nat :=
  match f.event with
  | none => 999
  | some e => e

lemma orderedInsert_key_congr {α : Type} (key₁ key₂ : α → Nat) (a : α) (l : List α)
    (ha : key₁ a = key₂ a) (hl : ∀ x ∈ l, key₁ x = key₂ x) :
    List.orderedInsert (fun x y => key₁ x ≤ key₁ y) a l =
      List.orderedInsert (fun x y => key₂ x ≤ key₂ y) a l := by
  induction l with
  | nil => rfl
  | cons b rest ih =>
      have hb : key₁ b = key₂ b := hl b (by simp)
      have hrest : ∀ x ∈ rest, key₁ x = key₂ x := fun x hx => hl x (by simp [hx])
      simp only [List.orderedInsert, ha, hb]
      by_cases h : key₂ a ≤ key₂ b <;> simp [h, ih hrest]

lemma sortByKey_congr {α : Type} (key₁ key₂ : α → Nat) (l : List α)
    (hl : ∀ x ∈ l, key₁ x = key₂ x) :
    sortByKey key₁ l = sortByKey key₂ l := by
  induction l with
  | nil => rfl
  | cons a rest ih =>
      have hrest : ∀ x ∈ rest, key₁ x = key₂ x := fun x hx => hl x (by simp [hx])
      simp only [sortByKey, List.insertionSort] at ih ⊢
      rw [ih hrest]
      apply orderedInsert_key_congr
      · exact hl a (by simp)
      · intro x hx
        have hxr := (List.mem_insertionSort _).mp hx
        exact hl x (by simp [hxr])

lemma filter_orderedInsert {α : Type} (key : α → Nat) (k : Nat) (a : α) (l : List α) :
    (List.orderedInsert (fun x y => key x ≤ key y) a l).filter (fun x => key x == k) =
      if key a == k then a :: l.filter (fun x => key x == k)
      else l.filter (fun x => key x == k) := by
  induction l with
  | nil => by_cases h : key a == k <;> simp [List.orderedInsert, h]
  | cons b rest ih =>
      by_cases hab : key a ≤ key b
      · simp only [List.orderedInsert, if_pos hab]
        by_cases h : key a == k <;> simp [List.filter_cons, h]
      · simp only [List.orderedInsert, if_neg hab]
        by_cases hbk : key b == k
        · by_cases hak : key a == k
          · exfalso
            have h1 : key a = k := by simpa using hak
            have h2 : key b = k := by simpa using hbk
            exact hab (by rw [h1, h2])
          · simp [List.filter_cons, hbk, ih, hak]
        · by_cases hak : key a == k <;> simp [List.filter_cons, hbk, ih, hak]

lemma filter_sortByKey {α : Type} (key : α → Nat) (k : Nat) (l : List α) :
    (sortByKey key l).filter (fun x => key x == k) = l.filter (fun x => key x == k) := by
  induction l with
  | nil => rfl
  | cons a rest ih =>
      simp only [sortByKey, List.insertionSort] at ih ⊢
      rw [filter_orderedInsert]
      by_cases h : key a == k <;> simp [List.filter_cons, h, ih]

lemma sorted_sortByKey {α : Type} (key : α → Nat) (l : List α) :
    List.Sorted (fun a b => key a ≤ key b) (sortByKey key l) := by
  haveI : IsTotal α (fun a b => key a ≤ key b) := ⟨fun a b => Nat.le_total (key a) (key b)⟩
  haveI : IsTrans α (fun a b => key a ≤ key b) :=
    ⟨fun a b c hab hbc => Nat.le_trans hab hbc⟩
  exact List.sorted_insertionSort _ l

/-- C1: every fixture retained by the selector whose opponent is found in the
team lookup reports the opponent's strengths with the opposite venue
convention: a home fixture uses the opponent's away defence and away attack
strengths, an away fixture uses the opponent's home values. -/
theorem venue_inversion_C1 (fixtures : List Fixture) (teamId : Int)
    (teams : List Team) (f : Fixture) (t : Team)
    (_hf : f ∈ selectTeamFixtures fixtures teamId)
    (ht : teamMapGet teams (if f.team_h == teamId then f.team_a else f.team_h) = some t) :
    ((buildFixtureView teamId teams f).is_home = true →
      (buildFixtureView teamId teams f).opponent_def_strength = some t.strength_defence_away ∧
      (buildFixtureView teamId teams f).opponent_att_strength = some t.strength_attack_away) ∧
    ((buildFixtureView teamId teams f).is_home = false →
      (buildFixtureView teamId teams f).opponent_def_strength = some t.strength_defence_home ∧
      (buildFixtureView teamId teams f).opponent_att_strength = some t.strength_attack_home) := by
  by_cases hh : (f.team_h == teamId) = true
  · rw [if_pos hh] at ht
    constructor
    · intro _
      simp [buildFixtureView, hh, ht]
    · intro hfalse
      simp [buildFixtureView, hh] at hfalse
  · have hh' : (f.team_h == teamId) = false := by
      cases hb : (f.team_h == teamId) with
      | true => exact absurd hb hh
      | false => rfl
    rw [if_neg (by simp [hh'])] at ht
    constructor
    · intro htrue
      simp [buildFixtureView, hh'] at htrue
    · intro _
      simp [buildFixtureView, hh', ht]

/-- A concrete opponent team for witnesses. -/
def exTeamB : Team :=
  { id := 2, name := "B", strength_attack_home := 10, strength_attack_away := 11,
    strength_defence_home := 12, strength_defence_away := 13 }

/-- A concrete home fixture of team 1 against team 2 for witnesses. -/
def exFixtureHome : Fixture :=
  { event := some 1, team_h := 1, team_a := 2, team_h_difficulty := 2,
    team_a_difficulty := 3, kickoff_time := "t" }

/-- Witness for C1: a concrete home fixture against a known opponent. -/
theorem venue_inversion_C1_witness :
    ((buildFixtureView 1 [exTeamB] exFixtureHome).is_home = true →
      (buildFixtureView 1 [exTeamB] exFixtureHome).opponent_def_strength =
        some exTeamB.strength_defence_away ∧
      (buildFixtureView 1 [exTeamB] exFixtureHome).opponent_att_strength =
        some exTeamB.strength_attack_away) ∧
    ((buildFixtureView 1 [exTeamB] exFixtureHome).is_home = false →
      (buildFixtureView 1 [exTeamB] exFixtureHome).opponent_def_strength =
        some exTeamB.strength_defence_home ∧
      (buildFixtureView 1 [exTeamB] exFixtureHome).opponent_att_strength =
        some exTeamB.strength_attack_home) :=
  venue_inversion_C1 [exFixtureHome] 1 [exTeamB] exFixtureHome exTeamB
    (by decide) (by decide)

/-- C2: the selector keeps exactly the fixtures in which the team appears,
sorts them stably ascending by gameweek with an unset gameweek treated as
the sentinel 999, and takes the first 5; the sort is by the spec key
(sorted, and equal-key elements keep their original relative order).  The
hypothesis excludes a literal gameweek 0, which is not a gameweek number but
which the JS falsy test `event || 999` would also send to the sentinel. -/
theorem selector_pipeline_C2 (fixtures : List Fixture) (teamId : Int)
    (hwf : ∀ f ∈ fixtures, f.event ≠ some 0) :
    selectTeamFixtures fixtures teamId =
      (sortByKey specGwKey (fixtures.filter (participates teamId))).take 5 ∧
    List.Sorted (fun a b => specGwKey a ≤ specGwKey b)
      (sortByKey specGwKey (fixtures.filter (participates teamId))) ∧
    (∀ k, (sortByKey specGwKey (fixtures.filter (participates teamId))).filter
          (fun f => specGwKey f == k) =
        (fixtures.filter (participates teamId)).filter (fun f => specGwKey f == k)) := by
  refine ⟨?_, sorted_sortByKey _ _, fun k => filter_sortByKey _ _ _⟩
  unfold selectTeamFixtures
  congr 1
  apply sortByKey_congr
  intro f hf
  have hm : f ∈ fixtures := (List.mem_filter.mp hf).1
  have hne := hwf f hm
  unfold jsEventOr999 specGwKey
  rcases he : f.event with _ | e
  · rfl
  · rw [he] at hne
    have he0 : ¬ e = 0 := fun h => hne (by rw [h])
    simp [he0]

/-- A helper to build a fixture with only the gameweek and sides varying. -/
def mkFixture (e : Option Nat) (h a : Int) (k : String) : Fixture :=
  { event := e, team_h := h, team_a := a, team_h_difficulty := 2,
    team_a_difficulty := 3, kickoff_time := k }

/-- The seven-fixture example list of the specification, gameweeks
3, 1, unset, 2, 5, 4, 6, all involving team 1. -/
def exFixtures7 : List Fixture :=
  [mkFixture (some 3) 1 2 "a", mkFixture (some 1) 2 1 "b", mkFixture none 1 3 "c",
   mkFixture (some 2) 1 4 "d", mkFixture (some 5) 5 1 "e", mkFixture (some 4) 1 6 "f",
   mkFixture (some 6) 7 1 "g"]

/-- Witness for C2: the seven-fixture example from the specification. -/
theorem selector_pipeline_C2_witness :
    selectTeamFixtures exFixtures7 1 =
      (sortByKey specGwKey (exFixtures7.filter (participates 1))).take 5 ∧
    List.Sorted (fun a b => specGwKey a ≤ specGwKey b)
      (sortByKey specGwKey (exFixtures7.filter (participates 1))) ∧
    (∀ k, (sortByKey specGwKey (exFixtures7.filter (participates 1))).filter
          (fun f => specGwKey f == k) =
        (exFixtures7.filter (participates 1)).filter (fun f => specGwKey f == k)) :=
  selector_pipeline_C2 exFixtures7 1 (by decide)

lemma getOrRefresh_ok_cached {α : Type} (st : CacheState α) (now ttl : Nat)
    (fr : Except String α) (p : α)
    (h : (getOrRefresh st now ttl fr).1 = Except.ok p) :
    (getOrRefresh st now ttl fr).2.1.cached = some p := by
  rcases hc : st.cached with _ | q
  · rcases hfr : fr with e | d <;>
      simp [getOrRefresh, refreshStep, hc, hfr] at h ⊢
    exact h
  · by_cases hh : now - st.timestamp < ttl
    · simp [getOrRefresh, hc, hh] at h ⊢
      exact h
    · rcases hfr : fr with e | d <;>
        simp [getOrRefresh, refreshStep, hc, hh, hfr] at h ⊢
      exact h

/-- C3: a cache entry younger than the TTL is served as-is with no upstream
fetch, and consequently a second call within the TTL of the state left by a
first successful call issues no further fetch, so two such calls issue at
most one fetch in total. -/
theorem cache_hit_C3 {α : Type} (st : CacheState α) (ttl now now₂ : Nat)
    (fr fr₂ : Except String α) :
    (∀ p : α, st.cached = some p → now - st.timestamp < ttl →
        getOrRefresh st now ttl fr = (Except.ok p, st, false)) ∧
    (∀ p : α, (getOrRefresh st now ttl fr).1 = Except.ok p →
        now₂ - (getOrRefresh st now ttl fr).2.1.timestamp < ttl →
        ((if (getOrRefresh st now ttl fr).2.2 then 1 else 0) +
          (if (getOrRefresh (getOrRefresh st now ttl fr).2.1 now₂ ttl fr₂).2.2
            then 1 else 0) ≤ 1)) := by
  constructor
  · intro p hp ht
    simp [getOrRefresh, hp, ht]
  · intro p hok ht₂
    have hcached := getOrRefresh_ok_cached st now ttl fr p hok
    set st₁ := (getOrRefresh st now ttl fr).2.1 with hst₁
    have hsecond : (getOrRefresh st₁ now₂ ttl fr₂).2.2 = false := by
      simp [getOrRefresh, hcached, ht₂]
    rw [hsecond]
    by_cases hb : (getOrRefresh st now ttl fr).2.2 <;> simp [hb]

/-- Witness for C3, at the bootstrap TTL: a populated fresh cache serves the
payload with no fetch, and a miss-then-hit pair issues exactly one fetch. -/
theorem cache_hit_C3_witness :
    (getOrRefresh { cached := some (37 : Nat), timestamp := 100 } 200 BOOTSTRAP_CACHE_MS
        (Except.error "down") =
      (Except.ok 37, { cached := some (37 : Nat), timestamp := 100 }, false)) ∧
    ((if (getOrRefresh { cached := none, timestamp := 0 } 200 BOOTSTRAP_CACHE_MS
          (Except.ok (37 : Nat))).2.2 then 1 else 0) +
      (if (getOrRefresh (getOrRefresh { cached := none, timestamp := 0 } 200
            BOOTSTRAP_CACHE_MS (Except.ok (37 : Nat))).2.1 300 BOOTSTRAP_CACHE_MS
            (Except.ok (55 : Nat))).2.2 then 1 else 0) ≤ 1) :=
  And.intro
    ((cache_hit_C3 { cached := some (37 : Nat), timestamp := 100 } BOOTSTRAP_CACHE_MS
        200 300 (Except.error "down") (Except.error "down")).1 37 rfl (by decide))
    ((cache_hit_C3 { cached := none, timestamp := 0 } BOOTSTRAP_CACHE_MS
        200 300 (Except.ok (37 : Nat)) (Except.ok (55 : Nat))).2 37 rfl (by decide))

/-- C4: when a refresh is attempted (no entry, or the entry is stale) and
the fetch fails, the failure propagates and the cache slot, payload and
timestamp alike, is exactly what it was before the call. -/
theorem failed_refresh_preserves_C4 {α : Type} (st : CacheState α) (now ttl : Nat)
    (e : String) (hmiss : st.cached = none ∨ ¬ now - st.timestamp < ttl) :
    getOrRefresh st now ttl (Except.error e) = (Except.error e, st, true) := by
  rcases hc : st.cached with _ | p
  · simp [getOrRefresh, refreshStep, hc]
  · rcases hmiss with h | h
    · rw [hc] at h
      cases h
    · simp [getOrRefresh, refreshStep, hc, h]

/-- Witness for C4: a stale populated entry survives a failing refresh. -/
theorem failed_refresh_preserves_C4_witness :
    getOrRefresh { cached := some (37 : Nat), timestamp := 0 } 70000 BOOTSTRAP_CACHE_MS
        (Except.error "down") =
      (Except.error "down", { cached := some (37 : Nat), timestamp := 0 }, true) :=
  failed_refresh_preserves_C4 { cached := some (37 : Nat), timestamp := 0 } 70000
    BOOTSTRAP_CACHE_MS "down" (Or.inr (by decide))

/-- An empty bootstrap dataset (all collections present but empty). -/
def bootEmpty : Bootstrap :=
  { elements := some [], teams := some [], element_types := some [] }

/-- Counterexample to C5 as stated: the parameter value -1 is a parseable
negative number, yet `if (!teamId)` does not reject it.  The handler goes on
to fetch both resources (2 upstream fetches) and answers 404, not 400. -/
theorem teamid_validation_C5_counterexample :
    (handleTeamFixtures (some (-1)) 0 { cached := none, timestamp := 0 }
        { cached := none, timestamp := 0 } (Except.ok bootEmpty) (Except.ok [])).1.1 = 404 ∧
    (handleTeamFixtures (some (-1)) 0 { cached := none, timestamp := 0 }
        { cached := none, timestamp := 0 } (Except.ok bootEmpty) (Except.ok [])).2.2.2 = 2 ∧
    (404 : Nat) ≠ 400 := by
  refine ⟨rfl, rfl, by decide⟩

/-- C5 amended: the falsy check rejects exactly an unparseable (NaN) or
zero parameter with HTTP 400, an error body, untouched caches and no
upstream fetch; a negative parameter is not rejected by this validation. -/
theorem teamid_validation_C5 (param : Option Int) (now : Nat)
    (bootSt : CacheState Bootstrap) (fixSt : CacheState (List Fixture))
    (frb : Except String Bootstrap) (frf : Except String (List Fixture))
    (h : param = none ∨ param = some 0) :
    handleTeamFixtures param now bootSt fixSt frb frf =
      ((400, TFBody.err "Invalid team id"), bootSt, fixSt, 0) := by
  have hfalsy : jsFalsyNum param = true := by
    rcases h with h | h <;> simp [h, jsFalsyNum]
  simp [handleTeamFixtures, hfalsy]

/-- Witness for C5 amended: the literal request GET /api/team-fixtures/abc,
whose parameter parses to NaN. -/
theorem teamid_validation_C5_witness :
    handleTeamFixtures none 5 { cached := none, timestamp := 0 }
        { cached := none, timestamp := 0 } (Except.ok bootEmpty) (Except.ok []) =
      ((400, TFBody.err "Invalid team id"), { cached := none, timestamp := 0 },
        { cached := none, timestamp := 0 }, 0) :=
  teamid_validation_C5 none 5 { cached := none, timestamp := 0 }
    { cached := none, timestamp := 0 } (Except.ok bootEmpty) (Except.ok [])
    (Or.inl rfl)

/-- C6: the projector is a total function; when the owning team id is absent
from the teams table the projected team name is "Unknown", and when the
position-type id is absent the projected position code is "UNK". -/
theorem projector_total_C6 (p : RawPlayer) (teams : List Team)
    (ets : List ElementType) :
    (teams.find? (fun t => t.id == p.team) = none →
        (mapPlayer p teams ets).team = "Unknown") ∧
    (ets.find? (fun et => et.id == p.element_type) = none →
        (mapPlayer p teams ets).position = "UNK") := by
  constructor <;> intro h <;> simp [mapPlayer, h]

/-- A concrete raw player whose team id and element type id match nothing. -/
def exRawPlayer : RawPlayer :=
  { id := 7, web_name := "W", first_name := "F", second_name := "S",
    team := 9, element_type := 4,
    stats :=
      { now_cost := 55, total_points := 10, minutes := 90, goals_scored := 1,
        assists := 2, clean_sheets := 0, goals_conceded := 3, own_goals := 0,
        penalties_saved := 0, penalties_missed := 0, yellow_cards := 1,
        red_cards := 0, saves := 0, bonus := 1, bps := 20, influence := "1.0",
        creativity := "2.0", threat := "3.0", ict_index := "4.0", form := "5.0",
        points_per_game := "6.0", selected_by_percent := "7.0", ep_next := "8.0",
        ep_this := "9.0", expected_goals := "0.1", expected_assists := "0.2",
        expected_goal_involvements := "0.3", expected_goals_conceded := "0.4" } }

/-- Witness for C6: empty lookup tables force both sentinels. -/
theorem projector_total_C6_witness :
    (([] : List Team).find? (fun t => t.id == exRawPlayer.team) = none →
        (mapPlayer exRawPlayer [] []).team = "Unknown") ∧
    (([] : List ElementType).find? (fun et => et.id == exRawPlayer.element_type) = none →
        (mapPlayer exRawPlayer [] []).position = "UNK") :=
  projector_total_C6 exRawPlayer [] []

/-- C7: on a successful dataset fetch, GET /api/players answers 200 with one
projected record per upstream player element in upstream order, and one
id/name pair per upstream team in upstream order (SimpleTeam carries no
other field). -/
theorem players_endpoint_C7 (now : Nat) (st : CacheState Bootstrap)
    (fr : Except String Bootstrap) (data : Bootstrap)
    (hok : (getBootstrapStatic st now fr).1 = Except.ok data) :
    (handlePlayers now st fr).1.1 = 200 ∧
    (handlePlayers now st fr).1.2 = PlayersBody.payload
        ((data.elements.getD []).map (fun p =>
            mapPlayer p (data.teams.getD []) (data.element_types.getD [])))
        ((data.teams.getD []).map (fun t => { id := t.id, name := t.name })) ∧
    (∀ plist steams,
        (handlePlayers now st fr).1.2 = PlayersBody.payload plist steams →
        plist.length = (data.elements.getD []).length ∧
        steams.length = (data.teams.getD []).length ∧
        (∀ i : Nat, plist[i]? = ((data.elements.getD [])[i]?).map (fun p =>
            mapPlayer p (data.teams.getD []) (data.element_types.getD []))) ∧
        (∀ i : Nat, steams[i]? = ((data.teams.getD [])[i]?).map (fun t =>
            ({ id := t.id, name := t.name } : SimpleTeam)))) := by
  have hbody : (handlePlayers now st fr).1.2 = PlayersBody.payload
      ((data.elements.getD []).map (fun p =>
          mapPlayer p (data.teams.getD []) (data.element_types.getD [])))
      ((data.teams.getD []).map (fun t => { id := t.id, name := t.name })) := by
    simp [handlePlayers, hok]
  refine ⟨by simp [handlePlayers, hok], hbody, ?_⟩
  intro plist steams hqe
  rw [hbody] at hqe
  injection hqe with h1 h2
  subst h1
  subst h2
  refine ⟨by simp, by simp, fun i => ?_, fun i => ?_⟩
  · simp [List.getElem?_map]
  · simp [List.getElem?_map]

/-- A second concrete team for the players-endpoint witness. -/
def exTeamA : Team :=
  { id := 1, name := "A", strength_attack_home := 20, strength_attack_away := 21,
    strength_defence_home := 22, strength_defence_away := 23 }

/-- A clone of exRawPlayer with chosen id, team id, and position-type id. -/
def mkRawPlayer (i tm et : Int) : RawPlayer :=
  { exRawPlayer with id := i, team := tm, element_type := et }

/-- A concrete position type. -/
def exTypeGkp : ElementType := { id := 1, singular_name_short := "GKP" }

/-- The specification's example dataset: 2 teams and 3 players. -/
def exBootstrap : Bootstrap :=
  { elements := some [mkRawPlayer 1 1 1, mkRawPlayer 2 1 2, mkRawPlayer 3 2 1],
    teams := some [exTeamA, exTeamB],
    element_types := some [exTypeGkp] }

/-- Witness for C7: the 2-team 3-player dataset served from a fresh cache. -/
theorem players_endpoint_C7_witness :
    (handlePlayers 100 { cached := some exBootstrap, timestamp := 100 }
        (Except.error "down")).1.1 = 200 ∧
    (handlePlayers 100 { cached := some exBootstrap, timestamp := 100 }
        (Except.error "down")).1.2 = PlayersBody.payload
        ((exBootstrap.elements.getD []).map (fun p =>
            mapPlayer p (exBootstrap.teams.getD []) (exBootstrap.element_types.getD [])))
        ((exBootstrap.teams.getD []).map (fun t => { id := t.id, name := t.name })) ∧
    (∀ plist steams,
        (handlePlayers 100 { cached := some exBootstrap, timestamp := 100 }
            (Except.error "down")).1.2 = PlayersBody.payload plist steams →
        plist.length = (exBootstrap.elements.getD []).length ∧
        steams.length = (exBootstrap.teams.getD []).length ∧
        (∀ i : Nat, plist[i]? = ((exBootstrap.elements.getD [])[i]?).map (fun p =>
            mapPlayer p (exBootstrap.teams.getD []) (exBootstrap.element_types.getD []))) ∧
        (∀ i : Nat, steams[i]? = ((exBootstrap.teams.getD [])[i]?).map (fun t =>
            ({ id := t.id, name := t.name } : SimpleTeam)))) :=
  players_endpoint_C7 100 { cached := some exBootstrap, timestamp := 100 }
    (Except.error "down") exBootstrap rfl

/-- C8: GET /api/player/:id matches the parsed id against player ids by
strict equality; no match yields 404 with an error body, a match yields the
projected player. -/
theorem player_endpoint_C8 (idParam : Option Int) (now : Nat)
    (st : CacheState Bootstrap) (fr : Except String Bootstrap) (data : Bootstrap)
    (hok : (getBootstrapStatic st now fr).1 = Except.ok data) :
    ((data.elements.getD []).find? (fun q => jsNumEq idParam q.id) = none →
        (handlePlayer idParam now st fr).1 = (404, PlayerBody.err "Player not found")) ∧
    (∀ q, (data.elements.getD []).find? (fun w => jsNumEq idParam w.id) = some q →
        (handlePlayer idParam now st fr).1 =
          (200, PlayerBody.payload
            (mapPlayer q (data.teams.getD []) (data.element_types.getD [])))) := by
  constructor
  · intro hnone
    simp [handlePlayer, hok, hnone]
  · intro q hq
    simp [handlePlayer, hok, hq]

/-- Witness for C8: the nonexistent id 999999 of the specification example
yields the 404 branch on the concrete dataset. -/
theorem player_endpoint_C8_witness :
    ((exBootstrap.elements.getD []).find?
        (fun q => jsNumEq (some 999999) q.id) = none →
      (handlePlayer (some 999999) 100 { cached := some exBootstrap, timestamp := 100 }
          (Except.error "down")).1 = (404, PlayerBody.err "Player not found")) ∧
    (∀ q, (exBootstrap.elements.getD []).find?
        (fun w => jsNumEq (some 999999) w.id) = some q →
      (handlePlayer (some 999999) 100 { cached := some exBootstrap, timestamp := 100 }
          (Except.error "down")).1 =
        (200, PlayerBody.payload
          (mapPlayer q (exBootstrap.teams.getD []) (exBootstrap.element_types.getD [])))) :=
  player_endpoint_C8 (some 999999) 100 { cached := some exBootstrap, timestamp := 100 }
    (Except.error "down") exBootstrap rfl

/-- C9: the team-fixtures handler never writes the caches beyond the two
cache reads themselves: the cache states it leaves behind are exactly the
states produced by getBootstrapStatic and getFixtures (the filter/sort/map
response pipeline feeds nothing back), and when both entries are fresh hits
both states are bitwise unchanged. -/
theorem fixtures_handler_frame_C9 (param : Option Int) (now : Nat)
    (bootSt : CacheState Bootstrap) (fixSt : CacheState (List Fixture))
    (frb : Except String Bootstrap) (frf : Except String (List Fixture)) :
    ((handleTeamFixtures param now bootSt fixSt frb frf).2.1 =
        if jsFalsyNum param then bootSt else (getBootstrapStatic bootSt now frb).2.1) ∧
    ((handleTeamFixtures param now bootSt fixSt frb frf).2.2.1 =
        if jsFalsyNum param then fixSt else (getFixtures fixSt now frf).2.1) ∧
    (∀ bp fp, bootSt.cached = some bp → fixSt.cached = some fp →
        now - bootSt.timestamp < BOOTSTRAP_CACHE_MS →
        now - fixSt.timestamp < FIXTURES_CACHE_MS →
        (handleTeamFixtures param now bootSt fixSt frb frf).2.1 = bootSt ∧
        (handleTeamFixtures param now bootSt fixSt frb frf).2.2.1 = fixSt) := by
  by_cases hfal : jsFalsyNum param = true
  · refine ⟨by simp [handleTeamFixtures, hfal], by simp [handleTeamFixtures, hfal], ?_⟩
    intro bp fp _ _ _ _
    constructor <;> simp [handleTeamFixtures, hfal]
  · have hf' : jsFalsyNum param = false := by
      cases h2 : jsFalsyNum param with
      | true => exact absurd h2 hfal
      | false => rfl
    have hmain : ((handleTeamFixtures param now bootSt fixSt frb frf).2.1 =
        (getBootstrapStatic bootSt now frb).2.1) ∧
        ((handleTeamFixtures param now bootSt fixSt frb frf).2.2.1 =
        (getFixtures fixSt now frf).2.1) := by
      simp only [handleTeamFixtures, hf', Bool.false_eq_true, if_false]
      constructor <;>
      · split
        · split
          · rfl
          · rfl
        · rfl
    refine ⟨by rw [hmain.1, if_neg hfal], by rw [hmain.2, if_neg hfal], ?_⟩
    intro bp fp hbp hfp htb htf
    have hB : getBootstrapStatic bootSt now frb = (Except.ok bp, bootSt, false) := by
      simp [getBootstrapStatic, getOrRefresh, hbp, htb]
    have hF : getFixtures fixSt now frf = (Except.ok fp, fixSt, false) := by
      simp [getFixtures, getOrRefresh, hfp, htf]
    exact ⟨by rw [hmain.1, hB], by rw [hmain.2, hF]⟩

/-- Witness for C9: a valid id against two fresh cache hits. -/
theorem fixtures_handler_frame_C9_witness :
    ((handleTeamFixtures (some 3) 50 { cached := some exBootstrap, timestamp := 40 }
        { cached := some exFixtures7, timestamp := 40 } (Except.error "down")
        (Except.error "down")).2.1 =
      if jsFalsyNum (some 3) then { cached := some exBootstrap, timestamp := 40 }
      else (getBootstrapStatic { cached := some exBootstrap, timestamp := 40 } 50
        (Except.error "down")).2.1) ∧
    ((handleTeamFixtures (some 3) 50 { cached := some exBootstrap, timestamp := 40 }
        { cached := some exFixtures7, timestamp := 40 } (Except.error "down")
        (Except.error "down")).2.2.1 =
      if jsFalsyNum (some 3) then { cached := some exFixtures7, timestamp := 40 }
      else (getFixtures { cached := some exFixtures7, timestamp := 40 } 50
        (Except.error "down")).2.1) ∧
    (∀ bp fp, ({ cached := some exBootstrap, timestamp := 40 } :
          CacheState Bootstrap).cached = some bp →
        ({ cached := some exFixtures7, timestamp := 40 } :
          CacheState (List Fixture)).cached = some fp →
        50 - 40 < BOOTSTRAP_CACHE_MS → 50 - 40 < FIXTURES_CACHE_MS →
        (handleTeamFixtures (some 3) 50 { cached := some exBootstrap, timestamp := 40 }
            { cached := some exFixtures7, timestamp := 40 } (Except.error "down")
            (Except.error "down")).2.1 = { cached := some exBootstrap, timestamp := 40 } ∧
        (handleTeamFixtures (some 3) 50 { cached := some exBootstrap, timestamp := 40 }
            { cached := some exFixtures7, timestamp := 40 } (Except.error "down")
            (Except.error "down")).2.2.1 = { cached := some exFixtures7, timestamp := 40 }) :=
  fixtures_handler_frame_C9 (some 3) 50 { cached := some exBootstrap, timestamp := 40 }
    { cached := some exFixtures7, timestamp := 40 } (Except.error "down")
    (Except.error "down")

/-- C10: every fixture view the selector pipeline emits carries the raw
upstream gameweek verbatim: its gw field equals the event of some input
fixture of the team, so an unset gameweek stays absent and the 999 sentinel
is never introduced into the output. -/
theorem gw_passthrough_C10 (fixtures : List Fixture) (teamId : Int)
    (teams : List Team) (fv : FixtureView)
    (h : fv ∈ (selectTeamFixtures fixtures teamId).map (buildFixtureView teamId teams)) :
    ∃ f, f ∈ fixtures ∧ participates teamId f = true ∧ fv.gw = f.event := by
  rcases List.mem_map.mp h with ⟨f, hf, hfv⟩
  simp only [selectTeamFixtures, sortByKey] at hf
  have h1 := List.mem_of_mem_take hf
  have h2 := (List.mem_insertionSort _).mp h1
  rcases List.mem_filter.mp h2 with ⟨hmem, hpart⟩
  refine ⟨f, hmem, hpart, ?_⟩
  rw [← hfv]
  simp [buildFixtureView]

/-- Witness for C10: the gameweek-1 away fixture of the example list. -/
theorem gw_passthrough_C10_witness :
    ∃ f, f ∈ exFixtures7 ∧ participates 1 f = true ∧
      (buildFixtureView 1 [exTeamB] (mkFixture (some 1) 2 1 "b")).gw = f.event :=
  gw_passthrough_C10 exFixtures7 1 [exTeamB]
    (buildFixtureView 1 [exTeamB] (mkFixture (some 1) 2 1 "b")) (by decide)

end FplCompare
